import Mathlib

/-!
Formal model of `scripts/check_voice_consistency.py`: the context-aware
markdown voice/style checker (context classifier, rule evaluator,
example-format checker, anti-pattern checker, JSON reporter, exit code).

Strings are modelled over their character lists.  The Python regular
expressions used by the script fall into a small fragment (literal words
joined by `\s+` or `\w+`, with `\b` boundaries, all applied to a lower-cased
line); that fragment is embedded directly.  Character classes `\w` and `\s`
are modelled over ASCII, matching the script's behaviour on ASCII input
(all rule patterns and the documents considered in the theorems are ASCII
apart from the marker glyphs, which are neither word nor space characters
in either reading).
-/

/-- ASCII model of Python regex `\s` / `str.strip` whitespace. -/
def isPySpace (c : Char) : Bool :=
  c = ' ' || c = '\t' || c = '\n' || c = '\r' || c = '\x0b' || c = '\x0c'

/-- ASCII model of Python regex `\w` (word character). -/
def isWordChar (c : Char) : Bool :=
  c.isAlphanum || c = '_'

/-- Model of Python `str.lower()` (ASCII). -/
def lowerStr (s : String) : String :=
  String.mk (s.data.map Char.toLower)

/-- Whitespace trim of a character list (both ends). -/
def trimWs (cs : List Char) : List Char :=
  ((cs.dropWhile isPySpace).reverse.dropWhile isPySpace).reverse

/-- Model of Python `str.strip()`. -/
def stripStr (s : String) : String :=
  String.mk (trimWs s.data)

/-!  Regex fragment used by the voice rules: a pattern is a token list
wrapped in `\b ... \b`.  Tokens: a literal, `\s+`, `\w+`, and `\w+suf`
(a `\w+` directly followed by a literal suffix of word characters, used by
`\w+ed` and `\w+ing`). -/

inductive Tok where
  | lit : List Char → Tok
  | ws : Tok
  | word : Tok
  | wordSuf : List Char → Tok
deriving Repr, DecidableEq

/-- Match a token list at the head of `cs`; returns the number of characters
consumed.  `\s+` and `\w+` take their maximal run, which coincides with
Python's backtracking semantics for the token sequences that occur in the
script's patterns (a run token is never followed by a token that could
consume characters of the same class). -/
def matchToks : List Tok → List Char → Option Nat
  | [], _ => some 0
  | Tok.lit l :: ts, cs =>
      if l.isPrefixOf cs then (matchToks ts (cs.drop l.length)).map (· + l.length) else none
  | Tok.ws :: ts, cs =>
      let n := (cs.takeWhile isPySpace).length
      if n = 0 then none else (matchToks ts (cs.drop n)).map (· + n)
  | Tok.word :: ts, cs =>
      let n := (cs.takeWhile isWordChar).length
      if n = 0 then none else (matchToks ts (cs.drop n)).map (· + n)
  | Tok.wordSuf suf :: ts, cs =>
      let run := cs.takeWhile isWordChar
      if suf.length < run.length && suf.isSuffixOf run then
        (matchToks ts (cs.drop run.length)).map (· + run.length)
      else none

/-- Trailing `\b`: the character after the match is absent or non-word
(every pattern in the script ends in a word character). -/
def boundaryAfter (cs : List Char) : Bool :=
  match cs with
  | [] => true
  | c :: _ => !(isWordChar c)

/-- Match `toks` followed by a trailing `\b` at the head of `cs`. -/
def matchPatHere (toks : List Tok) (cs : List Char) : Option Nat :=
  match matchToks toks cs with
  | none => none
  | some n => if boundaryAfter (cs.drop n) then some n else none

/-- `re.finditer` over `\b toks \b`: scan left to right, yield non-overlapping
(start, length) pairs, resuming at each match end.  `prevOk` records that the
previous character is absent or non-word (the leading `\b`, since every
pattern starts with a word character).  `fuel` bounds the recursion by the
list length; every match consumes at least one character. -/
def findIterAux (toks : List Tok) : Nat → Bool → List Char → Nat → List (Nat × Nat)
  | 0, _, _, _ => []
  | _, _, [], _ => []
  | Nat.succ fuel, prevOk, c :: rest, pos =>
    match (if prevOk then matchPatHere toks (c :: rest) else none) with
    | some n =>
        (pos, n) ::
          findIterAux toks fuel (!(isWordChar ((c :: rest).getD (n - 1) c)))
            ((c :: rest).drop n) (pos + n)
    | none => findIterAux toks fuel (!(isWordChar c)) rest (pos + 1)

/-- All matches of pattern `\b toks \b` in `cs` (start position, length). -/
def findIter (toks : List Tok) (cs : List Char) : List (Nat × Nat) :=
  findIterAux toks cs.length true cs 0

/-- Literal token from a string. -/
def litT (s : String) : Tok := Tok.lit s.data

/-- `SECOND_PERSON_PATTERNS` (source lines 83-99): pattern and suggestion,
in the source's insertion order. -/
def SECOND_PERSON_PATTERNS : List (List Tok × String) :=
  [ ([litT "you", Tok.ws, litT "should"], "Replace with imperative: 'Use X' or 'Apply Y'"),
    ([litT "you", Tok.ws, litT "must"], "Replace with imperative: 'Must X' or 'Always Y'"),
    ([litT "you", Tok.ws, litT "can"], "Replace with capability statement: 'To X, do Y' or 'X enables Y'"),
    ([litT "you", Tok.ws, litT "need", Tok.ws, litT "to"], "Replace with imperative: '[Verb] directly'"),
    ([litT "you", Tok.ws, litT "have", Tok.ws, litT "to"], "Replace with imperative: 'Required: X' or 'Must Y'"),
    ([litT "you", Tok.ws, litT "want", Tok.ws, litT "to"], "Replace with purpose: 'To accomplish X, do Y'"),
    ([litT "you'll", Tok.ws, litT "need"], "Replace with requirement: 'Required: X' or 'Need: Y'"),
    ([litT "you'll", Tok.ws, litT "want"], "Replace with purpose: 'To accomplish X, do Y'"),
    ([litT "you're"], "Rewrite in imperative voice"),
    ([litT "yourself"], "Rewrite in imperative voice"),
    ([litT "your", Tok.ws, Tok.word, Tok.ws, litT "should"], "Replace with imperative statement"),
    ([litT "your", Tok.ws, Tok.word, Tok.ws, litT "must"], "Replace with imperative requirement"),
    ([litT "your", Tok.ws, Tok.word, Tok.ws, litT "can"], "Replace with capability description"),
    ([litT "if", Tok.ws, litT "you"], "Replace with conditional: 'When X occurs, do Y'"),
    ([litT "when", Tok.ws, litT "you"], "Replace with temporal: 'When X occurs' or 'During Y'") ]

/-- `PASSIVE_VOICE_PATTERNS` (source lines 102-109). -/
def PASSIVE_VOICE_PATTERNS : List (List Tok × String) :=
  [ ([litT "is", Tok.ws, Tok.wordSuf "ed".data], "Consider active voice: 'X does Y' instead of 'Y is done by X'"),
    ([litT "are", Tok.ws, Tok.wordSuf "ed".data], "Consider active voice"),
    ([litT "was", Tok.ws, Tok.wordSuf "ed".data], "Consider active voice"),
    ([litT "were", Tok.ws, Tok.wordSuf "ed".data], "Consider active voice"),
    ([litT "been", Tok.ws, Tok.wordSuf "ed".data], "Consider active voice"),
    ([litT "being", Tok.ws, Tok.wordSuf "ed".data], "Consider active voice") ]

/-- `NON_IMPERATIVE_PATTERNS` (source lines 112-119). -/
def NON_IMPERATIVE_PATTERNS : List (List Tok × String) :=
  [ ([litT "should", Tok.ws, Tok.word], "Use imperative: '[Verb] X' instead of 'should [verb]'"),
    ([litT "would", Tok.ws, Tok.word], "Use imperative or conditional"),
    ([litT "could", Tok.ws, Tok.word], "Use imperative or possibility statement"),
    ([litT "might", Tok.ws, Tok.word], "Use imperative or conditional"),
    ([litT "may", Tok.ws, Tok.word], "Use imperative or permission statement"),
    ([litT "consider", Tok.ws, Tok.wordSuf "ing".data], "Use imperative: '[Verb] X' instead of 'consider [verb]ing'") ]

/-- `CONVERSATIONAL_PATTERNS` (source lines 122-130), lower-cased as matched
against the lower-cased line under `re.IGNORECASE`. -/
def CONVERSATIONAL_PATTERNS : List (List Tok × String) :=
  [ ([litT "let's"], "Use imperative: 'Create X' instead of 'Let's create X'"),
    ([litT "we", Tok.ws, litT "can"], "Rewrite with focus on action, not actor"),
    ([litT "we", Tok.ws, litT "should"], "Use imperative directive"),
    ([litT "we", Tok.ws, litT "need", Tok.ws, litT "to"], "Use imperative requirement"),
    ([litT "i", Tok.ws, litT "recommend"], "State recommendation directly: 'Use X for Y'"),
    ([litT "i", Tok.ws, litT "suggest"], "State suggestion directly"),
    ([litT "in", Tok.ws, litT "my", Tok.ws, litT "experience"], "State fact directly or remove") ]

/-- `Severity` (source lines 23-27). -/
inductive Severity where
  | error
  | warning
  | info
deriving Repr, DecidableEq

/-- `Severity.value` strings. -/
def severityValue : Severity → String
  | Severity.error => "error"
  | Severity.warning => "warning"
  | Severity.info => "info"

/-- `Violation` (source lines 30-41). -/
structure Violation where
  file_path : String
  line_num : Nat
  line_content : String
  violation_type : String
  severity : Severity
  message : String
  suggestion : Option String
  matched_text : Option String
deriving Repr, DecidableEq



/-!  Context detection (`ContextDetector`, source lines 151-202). -/

/-- `re.match(CODE_BLOCK_START, line)`: the pattern is three backticks at the
start of the line followed by an optional language tag, so it matches exactly
when the line starts with three backticks (source line 135). -/
def fenceStart (line : String) : Bool :=
  "```".data.isPrefixOf line.data

/-- `re.match` of leading optional whitespace followed by character `c`
(the `^\s*>` and `^\s*\|` per-line context patterns, source lines 183, 186). -/
def lineStartsAfterWs (line : String) (c : Char) : Bool :=
  match line.data.dropWhile isPySpace with
  | [] => false
  | d :: _ => d == c

/-- The forward pass of `_build_context_map` (source lines 158-186) computing
the `in_code_block` and `in_frontmatter` flag lists from the carried state
`cb` (`code_block_active`), `fm` (`frontmatter_active`) and line index `i`.
The stored flag is the state after the line's toggle, as in the source. -/
def buildMaps : Bool → Bool → Nat → List String → List Bool × List Bool
  | _, _, _, [] => ([], [])
  | cb, fm, i, line :: rest =>
    let cb2 := if fenceStart line then !cb else cb
    let fm2 :=
      if stripStr line == "---" then
        (if i = 0 then true else if fm then false else fm)
      else fm
    let p := buildMaps cb2 fm2 (i + 1) rest
    (cb2 :: p.1, fm2 :: p.2)

/-- `ContextDetector`'s precomputed per-line context flags. -/
structure ContextDetector where
  in_code_block : List Bool
  in_frontmatter : List Bool
  in_quote : List Bool
  in_table : List Bool
deriving Repr, DecidableEq

/-- `ContextDetector.__init__` / `_build_context_map`. -/
def buildCtx (lines : List String) : ContextDetector :=
  let p := buildMaps false false 0 lines
  { in_code_block := p.1
    in_frontmatter := p.2
    in_quote := lines.map (fun l => lineStartsAfterWs l '>')
    in_table := lines.map (fun l => lineStartsAfterWs l '|') }

/-!  The four `EXCEPTION_CONTEXTS` inline patterns (source lines 139-144),
each applied with `re.search` to a single line. -/

/-- `^\s*[>#]\s+`: leading whitespace, then `>` or `#`, then at least one
whitespace character. -/
def excQuoteComment (line : String) : Bool :=
  match line.data.dropWhile isPySpace with
  | c :: d :: _ => (c == '>' || c == '#') && isPySpace d
  | _ => false

/-- Does `pat` occur in `cs` with no newline before the occurrence?  This is
`.*pat` within `re`'s dot-excludes-newline semantics, continued from the
current position. -/
def findLitNoNL (pat : List Char) : List Char → Bool
  | [] => false
  | c :: rest =>
    if pat.isPrefixOf (c :: rest) then true
    else if c == '\n' then false
    else findLitNoNL pat rest

/-- `^\s*-\s+\*\*.*\*\*:`: leading whitespace, a dash, at least one
whitespace, two asterisks, then `**:` later on the same line. -/
def excDefList (line : String) : Bool :=
  match line.data.dropWhile isPySpace with
  | '-' :: rest =>
    let wsRun := rest.takeWhile isPySpace
    if wsRun.length = 0 then false
    else
      match rest.drop wsRun.length with
      | '*' :: '*' :: tail => findLitNoNL "**:".data tail
      | _ => false
  | _ => false

/-- Helper for `excTable`: scanning the text after the first pipe, is there a
later pipe such that the characters in between, after trimming whitespace at
both ends, contain no newline?  (This is `\s*.*\s*\|` with `\s` spanning
newlines but `.` not.) -/
def excTableScan : List Char → List Char → Bool
  | _, [] => false
  | acc, c :: rest =>
    if c == '|' && !((trimWs acc).contains '\n') then true
    else excTableScan (acc ++ [c]) rest

/-- `^\s*\|\s*.*\s*\|`: leading whitespace, a pipe, then a second pipe
reachable through whitespace / non-newline text / whitespace. -/
def excTable (line : String) : Bool :=
  match line.data.dropWhile isPySpace with
  | '|' :: rest => excTableScan [] rest
  | _ => false

/-- State machine for `` `[^`]+` `` under `re.search`: state 0 = no opening
backtick seen, 1 = an opening backtick with no content yet, 2 = an opening
backtick followed by at least one non-backtick character. -/
def hasInlineCodeAux : Nat → List Char → Bool
  | _, [] => false
  | st, c :: rest =>
    if c == '`' then
      if st == 2 then true else hasInlineCodeAux 1 rest
    else
      hasInlineCodeAux (if st == 0 then 0 else 2) rest

/-- Inline code span pattern `` `[^`]+` ``. -/
def hasInlineCode (line : String) : Bool :=
  hasInlineCodeAux 0 line.data

/-- `ContextDetector.is_exception_context` (source lines 188-202): the
precomputed flags at the index, or any inline exception pattern on the line.
An out-of-range index reads `false` flags (the source never queries one). -/
def is_exception_context (ctx : ContextDetector) (idx : Nat) (line : String) : Bool :=
  ctx.in_code_block.getD idx false ||
  ctx.in_frontmatter.getD idx false ||
  ctx.in_quote.getD idx false ||
  ctx.in_table.getD idx false ||
  excQuoteComment line || excDefList line || excTable line || hasInlineCode line





/-!  `VoiceConsistencyChecker.check_file` (source lines 209-285). -/

/-- The four rule categories in evaluation order: violation type, severity,
message, pattern table (source lines 226-283). -/
def voicePatternGroups : List (String × Severity × String × List (List Tok × String)) :=
  [ ("second_person_voice", Severity.error, "Second-person voice detected (use imperative)",
      SECOND_PERSON_PATTERNS),
    ("passive_voice", Severity.warning, "Passive voice detected", PASSIVE_VOICE_PATTERNS),
    ("non_imperative_mood", Severity.warning, "Non-imperative mood detected",
      NON_IMPERATIVE_PATTERNS),
    ("conversational_tone", Severity.info, "Conversational tone detected",
      CONVERSATIONAL_PATTERNS) ]

/-- The violations the evaluator emits for a single non-exception line:
the line is lower-cased once, every pattern of every category is run with
`finditer`, and one `Violation` is emitted per match, carrying the original
line text and the matched substring of the lower-cased line. -/
def checkLineVoice (fp : String) (idx : Nat) (line : String) : List Violation :=
  let lower := lowerStr line
  voicePatternGroups.flatMap (fun g =>
    g.2.2.2.flatMap (fun p =>
      (findIter p.1 lower.data).map (fun m =>
        { file_path := fp
          line_num := idx + 1
          line_content := line
          violation_type := g.1
          severity := g.2.1
          message := g.2.2.1
          suggestion := some p.2
          matched_text := some (String.mk ((lower.data.drop m.1).take m.2)) })))

/-- The line loop of `VoiceConsistencyChecker.check_file`: lines flagged as
exception context are skipped (source lines 219-221). -/
def voiceLoop (fp : String) (ctx : ContextDetector) : Nat → List String → List Violation
  | _, [] => []
  | i, line :: rest =>
    (if is_exception_context ctx i line then [] else checkLineVoice fp i line) ++
      voiceLoop fp ctx (i + 1) rest

/-- `VoiceConsistencyChecker.check_file`. -/
def voiceCheckFile (fp : String) (lines : List String) : List Violation :=
  voiceLoop fp (buildCtx lines) 0 lines

/-!  `ExampleFormatChecker.check_file` (source lines 288-391).  The
`orphaned_code_blocks` list the source builds at lines 343-355 is collected
but never turned into a violation nor returned, so it is not modelled. -/

/-- `re.match(EXAMPLE_CHECKMARK_PATTERN, line)` / crossmark: leading
whitespace, the marker glyph, then at least one whitespace (source
lines 133-134). -/
def isMarkerLine (mark : Char) (line : String) : Bool :=
  match line.data.dropWhile isPySpace with
  | c :: d :: _ => c == mark && isPySpace d
  | _ => false

/-- A positive example marker line. -/
def isCheckmark (line : String) : Bool := isMarkerLine '✅' line

/-- A negative example marker line. -/
def isCrossmark (line : String) : Bool := isMarkerLine '❌' line

/-- The `missing_code_block` warning built at source lines 315-323 (positive
marker) and 332-340 (negative marker); `n` is the 1-based marker line. -/
def markerViol (fp : String) (n : Nat) (line : String) (good : Bool) : Violation :=
  { file_path := fp
    line_num := n
    line_content := line
    violation_type := "missing_code_block"
    severity := Severity.warning
    message := if good then "✅ example not followed by code block"
               else "❌ example not followed by code block"
    suggestion := some (if good then "Add code block after ✅ example"
                        else "Add code block after ❌ example")
    matched_text := none }

/-- The `imbalanced_examples` info violation built at source lines 361-369
(only positive markers) and 372-380 (only negative markers). -/
def imbalancedViol (fp : String) (n : Nat) (onlyGood : Bool) : Violation :=
  { file_path := fp
    line_num := n
    line_content := ""
    violation_type := "imbalanced_examples"
    severity := Severity.info
    message := if onlyGood then "Only ✅ examples found, consider adding ❌ anti-patterns"
               else "Only ❌ examples found, consider adding ✅ correct patterns"
    suggestion := some (if onlyGood then "Add ❌ examples to show what NOT to do"
                        else "Add ✅ examples to show correct usage")
    matched_text := none }

/-- The `while` loop of `ExampleFormatChecker.check_file`: per marker line,
when a next line exists and is not a fence start, emit the
`missing_code_block` warning; also collect the 1-based line numbers of
positive and negative markers (`good_examples`, `bad_examples`). -/
def exampleLoop (fp : String) : Nat → List String → List Violation × List Nat × List Nat
  | _, [] => ([], [], [])
  | i, line :: rest =>
    let p := exampleLoop fp (i + 1) rest
    let v1 : List Violation :=
      if isCheckmark line then
        match rest with
        | next :: _ => if fenceStart next then [] else [markerViol fp (i + 1) line true]
        | [] => []
      else []
    let v2 : List Violation :=
      if isCrossmark line then
        match rest with
        | next :: _ => if fenceStart next then [] else [markerViol fp (i + 1) line false]
        | [] => []
      else []
    (v1 ++ v2 ++ p.1,
     (if isCheckmark line then [i + 1] else []) ++ p.2.1,
     (if isCrossmark line then [i + 1] else []) ++ p.2.2)

/-- `ExampleFormatChecker.check_file`: loop violations, then the imbalance
checks, and the `has_examples` flag. -/
def exampleCheckFile (fp : String) (lines : List String) : List Violation × Bool :=
  let p := exampleLoop fp 0 lines
  let imb : List Violation :=
    (if !p.2.1.isEmpty && p.2.2.isEmpty then [imbalancedViol fp (p.2.1.headD 0) true] else []) ++
    (if !p.2.2.isEmpty && p.2.1.isEmpty then [imbalancedViol fp (p.2.2.headD 0) false] else [])
  (p.1 ++ imb, !p.2.1.isEmpty || !p.2.2.isEmpty)



/-!  `AntiPatternChecker.check_file` (source lines 394-429). -/

/-- `'\n'.join(lines).lower()` as a character list (source line 400). -/
def contentLower (lines : List String) : List Char :=
  (String.intercalate "\n" lines).data.map Char.toLower

/-- `re.search` of a plain literal: the pattern occurs somewhere in `cs`. -/
def containsLit (pat : List Char) : List Char → Bool
  | [] => pat.isEmpty
  | c :: rest => pat.isPrefixOf (c :: rest) || containsLit pat rest

/-- `re.search(r'anti[-\s]pattern', content)`: the word `anti`, one hyphen or
whitespace character, then `pattern`. -/
def containsAntiPattern : List Char → Bool
  | [] => false
  | c :: rest =>
    ("anti".data.isPrefixOf (c :: rest) &&
      (match (c :: rest).drop 4 with
       | d :: tail => (d == '-' || isPySpace d) && "pattern".data.isPrefixOf tail
       | [] => false)) ||
    containsAntiPattern rest

/-- `re.search(r'❌.*wrong', content)`: a cross glyph followed by `wrong`
with no newline in between (`.` does not match newline). -/
def containsCrossWrong : List Char → Bool
  | [] => false
  | c :: rest => (c == '❌' && findLitNoNL "wrong".data rest) || containsCrossWrong rest

/-- `re.search(r'don\'?t', content)`: `dont` or `don't`. -/
def containsDont : List Char → Bool
  | [] => false
  | c :: rest =>
    "dont".data.isPrefixOf (c :: rest) || "don't".data.isPrefixOf (c :: rest) ||
      containsDont rest

/-- `has_anti_patterns` (source lines 403-408). -/
def hasAntiPatternsOf (lines : List String) : Bool :=
  let content := contentLower lines
  containsAntiPattern content || containsCrossWrong content ||
    containsDont content || containsLit "avoid".data content

/-- `re.search(r'best\s+practice', content)`. -/
def containsBestPractice : List Char → Bool
  | [] => false
  | c :: rest =>
    ("best".data.isPrefixOf (c :: rest) &&
      (let t := (c :: rest).drop 4
       let wsRun := t.takeWhile isPySpace
       decide (1 ≤ wsRun.length) && "practice".data.isPrefixOf (t.drop wsRun.length))) ||
    containsBestPractice rest

/-- `re.search(r'✅.*correct', content)`. -/
def containsCheckCorrect : List Char → Bool
  | [] => false
  | c :: rest => (c == '✅' && findLitNoNL "correct".data rest) || containsCheckCorrect rest

/-- `has_best_practices` (source lines 411-415); computed by the source and
then discarded — it feeds no violation and is not returned. -/
def hasBestPracticesOf (lines : List String) : Bool :=
  let content := contentLower lines
  containsBestPractice content || containsCheckCorrect content ||
    containsLit "recommended".data content

/-- The `missing_anti_patterns` info violation (source lines 419-427). -/
def missingAntiViol (fp : String) : Violation :=
  { file_path := fp
    line_num := 1
    line_content := ""
    violation_type := "missing_anti_patterns"
    severity := Severity.info
    message := "No anti-patterns documented"
    suggestion := some "Consider adding section on common mistakes/anti-patterns"
    matched_text := none }

/-- `AntiPatternChecker.check_file`: emit the violation exactly when no
anti-pattern documentation was found and the document exceeds 100 lines. -/
def antiPatternCheckFile (fp : String) (lines : List String) : List Violation × Bool :=
  let hap := hasAntiPatternsOf lines
  ((if !hap && decide (100 < lines.length) then [missingAntiViol fp] else []), hap)

/-!  `FileReport` (source lines 56-75) and `SkillQualityChecker.check_file`
(source lines 604-636). -/

/-- `FileReport`. -/
structure FileReport where
  file_path : String
  violations : List Violation
  has_examples : Bool
  has_anti_patterns : Bool
  line_count : Nat
deriving Repr, DecidableEq

/-- `FileReport.error_count`. -/
def errorCount (r : FileReport) : Nat :=
  (r.violations.filter (fun v => v.severity == Severity.error)).length

/-- `FileReport.warning_count`. -/
def warningCount (r : FileReport) : Nat :=
  (r.violations.filter (fun v => v.severity == Severity.warning)).length

/-- `FileReport.info_count`. -/
def infoCount (r : FileReport) : Nat :=
  (r.violations.filter (fun v => v.severity == Severity.info)).length

/-- `SkillQualityChecker.check_file`: run the three checkers in order and
collect their violations into one report. -/
def checkFileReport (fp : String) (lines : List String) : FileReport :=
  let vv := voiceCheckFile fp lines
  let ev := exampleCheckFile fp lines
  let av := antiPatternCheckFile fp lines
  { file_path := fp
    violations := vv ++ ev.1 ++ av.1
    has_examples := ev.2
    has_anti_patterns := av.2
    line_count := lines.length }

/-- Sum of `error_count` over reports. -/
def totalErrors (rs : List FileReport) : Nat := (rs.map errorCount).sum

/-- Sum of `warning_count` over reports. -/
def totalWarnings (rs : List FileReport) : Nat := (rs.map warningCount).sum

/-- Sum of `info_count` over reports. -/
def totalInfo (rs : List FileReport) : Nat := (rs.map infoCount).sum

/-!  `ReportGenerator.generate_json` (source lines 569-590), modelled at the
level of the JSON document the source hands to `json.dumps`. -/

/-- JSON values (the fragment the report uses). -/
inductive Json where
  | str : String → Json
  | num : Nat → Json
  | null : Json
  | arr : List Json → Json
  | obj : List (String × Json) → Json

/-- Object field lookup (reading a parsed JSON document). -/
def Json.getField (j : Json) (k : String) : Option Json :=
  match j with
  | Json.obj kvs => (kvs.find? (fun kv => kv.1 == k)).map (fun kv => kv.2)
  | _ => none

/-- `Violation.to_dict` (source lines 42-53). -/
def violationToDict (v : Violation) : Json :=
  Json.obj
    [ ("file", Json.str v.file_path),
      ("line", Json.num v.line_num),
      ("content", Json.str (stripStr v.line_content)),
      ("type", Json.str v.violation_type),
      ("severity", Json.str (severityValue v.severity)),
      ("message", Json.str v.message),
      ("suggestion", match v.suggestion with | some s => Json.str s | none => Json.null),
      ("matched_text", match v.matched_text with | some s => Json.str s | none => Json.null) ]

/-- One entry of the `files` array of the JSON report. -/
def fileEntry (r : FileReport) : Json :=
  Json.obj
    [ ("path", Json.str r.file_path),
      ("violations", Json.arr (r.violations.map violationToDict)),
      ("error_count", Json.num (errorCount r)),
      ("warning_count", Json.num (warningCount r)),
      ("info_count", Json.num (infoCount r)) ]

/-- `ReportGenerator.generate_json`: the JSON document rendered by the
source (`json.dumps` of this value).  `files` lists only reports with at
least one violation (`if r.violations` — truthiness of a Python list). -/
def generateJson (reports : List FileReport) : Json :=
  Json.obj
    [ ("summary", Json.obj
        [ ("total_files", Json.num reports.length),
          ("files_with_violations",
            Json.num (reports.filter (fun r => !r.violations.isEmpty)).length),
          ("total_errors", Json.num ((reports.map errorCount).sum)),
          ("total_warnings", Json.num ((reports.map warningCount).sum)),
          ("total_info", Json.num ((reports.map infoCount).sum)) ]),
      ("files", Json.arr ((reports.filter (fun r => !r.violations.isEmpty)).map fileEntry)) ]

/-- The `files` array of a JSON report. -/
def jsonFiles (j : Json) : List Json :=
  match j.getField "files" with
  | some (Json.arr l) => l
  | _ => []

/-- A summary field of a JSON report. -/
def summaryField (j : Json) (k : String) : Option Json :=
  match j.getField "summary" with
  | some s => s.getField k
  | none => none

/-- The exit code computed at the end of `main` (source lines 781-788):
1 when there are errors, else 1 when `--ci` and there are warnings,
else 0. -/
def mainExitCode (ci : Bool) (reports : List FileReport) : Nat :=
  if 0 < totalErrors reports then 1
  else if ci && decide (0 < totalWarnings reports) then 1
  else 0

/-- Predicate: a violation is a `missing_code_block` violation at 1-based
line `n`. -/
def mcbAt (n : Nat) (v : Violation) : Bool :=
  v.violation_type == "missing_code_block" && v.line_num == n

/-- Modelled from the spec: the spec's description of the `hasAntiPatterns`
search — whole-document case-insensitive search for "anti-pattern" or
"antipattern", a cross-glyph near the word "wrong", "don't" or "do not", or
"avoid" (spec section 4.4).  Stated for comparison with the source's
`hasAntiPatternsOf`. -/
def specHasAntiPatterns (lines : List String) : Bool :=
  let content := contentLower lines
  containsLit "anti-pattern".data content || containsLit "antipattern".data content ||
    containsCrossWrong content || containsLit "don't".data content ||
    containsLit "do not".data content || containsLit "avoid".data content

/-!  Helper lemmas. -/

/-- Every violation the per-line evaluator emits carries the 1-based line
number of that line and the original line text. -/
theorem checkLineVoice_mem {fp : String} {idx : Nat} {line : String} {v : Violation}
    (h : v ∈ checkLineVoice fp idx line) :
    v.line_num = idx + 1 ∧ v.line_content = line := by
  simp only [checkLineVoice, List.mem_flatMap, List.mem_map] at h
  obtain ⟨g, -, p, -, m, -, rfl⟩ := h
  exact ⟨rfl, rfl⟩

/-- Every violation of the voice loop comes from a non-exception line, whose
index and text it records. -/
theorem voiceLoop_mem {fp : String} {ctx : ContextDetector} {v : Violation} :
    ∀ (ls : List String) (i : Nat), v ∈ voiceLoop fp ctx i ls →
      ∃ k, k < ls.length ∧ is_exception_context ctx (i + k) (ls.getD k "") = false ∧
        v.line_num = i + k + 1 ∧ v.line_content = ls.getD k "" := by
  intro ls
  induction ls with
  | nil => intro i h; simp [voiceLoop] at h
  | cons line rest ih =>
    intro i h
    rw [voiceLoop] at h
    rcases List.mem_append.mp h with h1 | h2
    · by_cases hex : is_exception_context ctx i line = true
      · simp [hex] at h1
      · obtain ⟨hnum, hcont⟩ := checkLineVoice_mem (by simpa [hex] using h1)
        exact ⟨0, by simp, by simpa using Bool.eq_false_iff.mpr hex, by simpa using hnum,
          by simpa using hcont⟩
    · obtain ⟨k, hk, hex, hnum, hcont⟩ := ih (i + 1) h2
      refine ⟨k + 1, by simpa using Nat.succ_lt_succ hk, ?_, ?_, ?_⟩
      · rw [show i + (k + 1) = i + 1 + k from by omega]
        simpa using hex
      · rw [hnum]; omega
      · simpa using hcont

/-- If every line of the suffix is in exception context, the voice loop
emits nothing. -/
theorem voiceLoop_all_exc {fp : String} {ctx : ContextDetector} :
    ∀ (ls : List String) (i : Nat),
      (∀ k, k < ls.length → is_exception_context ctx (i + k) (ls.getD k "") = true) →
      voiceLoop fp ctx i ls = [] := by
  intro ls
  induction ls with
  | nil => intro i _; rfl
  | cons line rest ih =>
    intro i h
    have h0 : is_exception_context ctx i line = true := by simpa using h 0 (by simp)
    rw [voiceLoop, h0]
    simp only [if_true, List.nil_append]
    exact ih (i + 1) (fun k hk => by
      have := h (k + 1) (by simpa using Nat.succ_lt_succ hk)
      rw [show i + (k + 1) = i + 1 + k from by omega] at this
      simpa using this)

/-- Parity flips across a successor. -/
theorem parity_succ (n : Nat) : decide ((n + 1) % 2 = 1) = !decide (n % 2 = 1) := by
  rcases Nat.mod_two_eq_zero_or_one n with h | h <;> simp [Nat.add_mod, h]

/-- The `in_code_block` flag stored for line `k` is the initial state xored
with the parity of the number of fence-start lines seen up to and including
line `k`. -/
theorem buildMaps_cb_parity :
    ∀ (ls : List String) (cb fm : Bool) (i k : Nat), k < ls.length →
      (buildMaps cb fm i ls).1.getD k false
        = (cb != decide ((((ls.take (k + 1)).countP fenceStart) % 2) = 1)) := by
  intro ls
  induction ls with
  | nil => intro cb fm i k h; simp at h
  | cons line rest ih =>
    intro cb fm i k h
    cases k with
    | zero =>
      by_cases hf : fenceStart line <;> simp [buildMaps, hf, List.countP_cons]
    | succ k =>
      have hk : k < rest.length := Nat.lt_of_succ_lt_succ h
      by_cases hf : fenceStart line
      · simp only [buildMaps, hf, if_true, List.getD_cons_succ, List.take_succ_cons,
          List.countP_cons, if_pos]
        rw [ih (!cb) _ (i + 1) k hk, parity_succ]
        cases cb <;>
          cases hd : decide ((List.countP fenceStart (List.take (k + 1) rest)) % 2 = 1) <;> simp
      · simp only [buildMaps, List.getD_cons_succ, List.take_succ_cons, List.countP_cons]
        rw [ih (if fenceStart line then !cb else cb) _ (i + 1) k hk]
        simp [hf]

/-- When no line of the list strips to `---`, the frontmatter flag stays at
`true` for the whole list (carried from an unterminated opening delimiter). -/
theorem buildMaps_fm_stable :
    ∀ (ls : List String) (cb : Bool) (i : Nat),
      (∀ l ∈ ls, (stripStr l == "---") = false) →
      (buildMaps cb true i ls).2 = List.replicate ls.length true := by
  intro ls
  induction ls with
  | nil => intro cb i _; rfl
  | cons line rest ih =>
    intro cb i h
    have hline := h line (List.mem_cons_self _ _)
    simp only [buildMaps, hline, Bool.false_eq_true, if_false, List.length_cons,
      List.replicate_succ]
    exact List.cons_eq_cons.mpr ⟨rfl, ih _ (i + 1) (fun l hl => h l (List.mem_cons_of_mem _ hl))⟩

/-- Reading inside a `replicate` of `true`. -/
theorem getD_replicate_true : ∀ (n k : Nat), k < n → (List.replicate n true).getD k false = true
  | _ + 1, 0, _ => rfl
  | n + 1, k + 1, h => getD_replicate_true n k (Nat.lt_of_succ_lt_succ h)

/-- A line cannot be both a positive and a negative example marker. -/
theorem marks_exclusive {line : String} (h : isCheckmark line = true) :
    isCrossmark line = false := by
  unfold isCheckmark isCrossmark isMarkerLine at *
  cases hd : line.data.dropWhile isPySpace with
  | nil => simp [hd] at h
  | cons c tl =>
    cases tl with
    | nil => simp [hd] at h
    | cons d tl2 =>
      rw [hd] at h
      rw [Bool.and_eq_true] at h
      have hc : c = '✅' := by simpa using h.1
      subst hc
      simp

/-- Every violation the example-format loop starting at index `j` emits
refers to a line number of at least `j + 1`. -/
theorem exampleLoop_mem {fp : String} :
    ∀ (ls : List String) (j : Nat) (v : Violation), v ∈ (exampleLoop fp j ls).1 →
      j + 1 ≤ v.line_num := by
  intro ls
  induction ls with
  | nil => intro j v hv; simp [exampleLoop] at hv
  | cons line rest ih =>
    intro j v hv
    simp only [exampleLoop] at hv
    rcases List.mem_append.mp hv with h12 | htail
    · rcases List.mem_append.mp h12 with h1 | h2
      · split at h1
        · split at h1
          · split at h1
            · simp at h1
            · rw [List.mem_singleton.mp h1]; exact Nat.le_refl _
          · simp at h1
        · simp at h1
      · split at h2
        · split at h2
          · split at h2
            · simp at h2
            · rw [List.mem_singleton.mp h2]; exact Nat.le_refl _
          · simp at h2
        · simp at h2
    · exact Nat.le_of_succ_le (ih (j + 1) v htail)

/-- Below its start index the example-format loop emits nothing. -/
theorem exampleLoop_count_low {fp : String} (ls : List String) (j n : Nat) (h : n ≤ j) :
    (exampleLoop fp j ls).1.countP (mcbAt n) = 0 := by
  rw [List.countP_eq_zero]
  intro v hv
  have hge := exampleLoop_mem ls j v hv
  simp only [mcbAt, Bool.and_eq_true, beq_iff_eq]
  intro hcontra
  omega

/-- The number of `missing_code_block` violations the example-format loop
emits for line index `k` (1-based line `i + k + 1` when the loop starts at
`i`): one per marker kind on that line when a next line exists and is not a
fence start, none otherwise. -/
theorem exampleLoop_countP {fp : String} :
    ∀ (ls : List String) (i k : Nat),
      (exampleLoop fp i ls).1.countP (mcbAt (i + k + 1))
        = (if isCheckmark (ls.getD k "") && !(ls.drop (k + 1)).isEmpty
              && !fenceStart (ls.getD (k + 1) "") then 1 else 0)
          + (if isCrossmark (ls.getD k "") && !(ls.drop (k + 1)).isEmpty
              && !fenceStart (ls.getD (k + 1) "") then 1 else 0) := by
  intro ls
  induction ls with
  | nil => intro i k; simp [exampleLoop, List.drop_nil]
  | cons line rest ih =>
    intro i k
    cases k with
    | zero =>
      simp only [exampleLoop, List.countP_append]
      rw [exampleLoop_count_low rest (i + 1) (i + 0 + 1) (by omega)]
      have hT : mcbAt (i + 0 + 1) (markerViol fp (i + 1) line true) = true := by
        simp [mcbAt, markerViol]
      have hF : mcbAt (i + 0 + 1) (markerViol fp (i + 1) line false) = true := by
        simp [mcbAt, markerViol]
      rcases rest with _ | ⟨next, t⟩
      · by_cases hc : isCheckmark line <;> by_cases hx : isCrossmark line <;>
          simp [hc, hx]
      · by_cases hc : isCheckmark line <;> by_cases hx : isCrossmark line <;>
          by_cases hf : fenceStart next <;>
          simp [hc, hx, hf, hT, hF, List.countP_cons]
    | succ k =>
      rw [show i + (k + 1) + 1 = i + 1 + k + 1 from by omega]
      simp only [exampleLoop, List.countP_append]
      rw [ih (i + 1) k]
      have h1 : ((i + 1 : Nat) == i + 1 + k + 1) = false :=
        beq_eq_false_iff_ne.mpr (by omega)
      rcases rest with _ | ⟨next, t⟩
      · by_cases hc : isCheckmark line <;> by_cases hx : isCrossmark line <;>
          simp [hc, hx, List.getD_cons_succ]
      · by_cases hc : isCheckmark line <;> by_cases hx : isCrossmark line <;>
          by_cases hf : fenceStart next <;>
          simp [hc, hx, hf, h1, mcbAt, markerViol, List.countP_cons, List.getD_cons_succ]

/-- A line cannot be both a negative and a positive example marker. -/
theorem marks_exclusive' {line : String} (h : isCrossmark line = true) :
    isCheckmark line = false := by
  cases hc : isCheckmark line
  · rfl
  · rw [marks_exclusive hc] at h
    exact absurd h (by simp)

/-- The imbalance violations appended by `exampleCheckFile` are never
`missing_code_block` violations, so they do not change that count. -/
theorem exampleCheckFile_countP (fp : String) (lines : List String) (n : Nat) :
    (exampleCheckFile fp lines).1.countP (mcbAt n)
      = (exampleLoop fp 0 lines).1.countP (mcbAt n) := by
  have h1 : ∀ (m : Nat) (g : Bool), mcbAt n (imbalancedViol fp m g) = false := by
    intro m g
    simp [mcbAt, imbalancedViol]
  simp only [exampleCheckFile, List.countP_append]
  split <;> split <;> simp [h1, List.countP_cons]

/-- C1 (counterexample): in the document `["```", "✅ x", "y", "```"]` the
combined checker report contains a violation (the `missing_code_block`
warning the example-format checker emits for the marker on line 2) whose
line the Context Classifier reports as being inside a code block — a rule
fires on an excluded line, contradicting the claim that no Violation of any
of the three checkers refers to an exception-context line. -/
theorem C1_checker_fires_on_excluded_line :
    ((checkFileReport "f" ["```", "✅ x", "y", "```"]).violations.any (fun v =>
      is_exception_context (buildCtx ["```", "✅ x", "y", "```"]) (v.line_num - 1)
        ((["```", "✅ x", "y", "```"]).getD (v.line_num - 1) ""))) = true := by
  decide

/-- C1 (amended): the invariant holds for the voice checker only — every
Violation the voice-consistency checker produces refers to a line for which
the Context Classifier reported no exception context at evaluation time.
The example-format checker and the anti-pattern checker do not consult the
classifier and can emit violations on excluded lines. -/
theorem C1_voice_rules_skip_excluded (fp : String) (lines : List String) (v : Violation)
    (hv : v ∈ voiceCheckFile fp lines) :
    is_exception_context (buildCtx lines) (v.line_num - 1)
      (lines.getD (v.line_num - 1) "") = false := by
  obtain ⟨k, _, hex, hnum, _⟩ := voiceLoop_mem lines 0 hv
  have hk : v.line_num - 1 = k := by omega
  rw [hk]
  simpa using hex

set_option maxRecDepth 4000 in
/-- C1 witness: the amended theorem applied at the one-line document
`["You should x"]` and its second-person violation. -/
theorem C1_voice_rules_skip_excluded_witness :
    is_exception_context (buildCtx ["You should x"]) 0 ((["You should x"]).getD 0 "") = false :=
  C1_voice_rules_skip_excluded "f" ["You should x"]
    { file_path := "f"
      line_num := 1
      line_content := "You should x"
      violation_type := "second_person_voice"
      severity := Severity.error
      message := "Second-person voice detected (use imperative)"
      suggestion := some "Replace with imperative: 'Use X' or 'Apply Y'"
      matched_text := some "you should" }
    (by decide)

/-- C2 (counterexample): a fence marker appearing mid-line does not toggle
`code_block_active` — the single line `"a ``` b"` is reported outside any
code block — and the closing fence of `["```", "x", "```"]` is reported
outside as well, so it is not the case that every fence line is itself
reported as inside a code block. -/
theorem C2_fence_counterexample :
    (buildCtx ["a ``` b"]).in_code_block = [false] ∧
    (buildCtx ["```", "x", "```"]).in_code_block = [true, true, false] := by
  decide

/-- C2 (amended): only lines that start with a triple-backtick fence marker
toggle `code_block_active` (a marker appearing mid-line does not), and the
flag stored for a line is the state after the toggle: `in_code_block[i]` is
true exactly when the number of fence-start lines among lines `0..i` is odd.
Hence an opening fence line is reported inside a code block and a closing
fence line is reported outside. -/
theorem C2_fence_parity (lines : List String) (i : Nat) (h : i < lines.length) :
    (buildCtx lines).in_code_block.getD i false
      = decide ((((lines.take (i + 1)).countP fenceStart) % 2) = 1) := by
  have hp := buildMaps_cb_parity lines false false 0 i h
  simpa [buildCtx] using hp

/-- C2 witness: the parity characterisation applied to `["```", "a"]` at
line index 1 (inside the block opened on line 0). -/
theorem C2_fence_parity_witness :
    (buildCtx ["```", "a"]).in_code_block.getD 1 false = true :=
  (C2_fence_parity ["```", "a"] 1 (by decide)).trans (by decide)

/-- C3 (counterexample): for the document `["---", "You should validate."]`
(front matter opened on line 1 and never closed) the classifier marks the
remaining line as front matter — not as non-front-matter — and the prose
rules therefore do not evaluate it: the voice checker emits nothing even
though line 2 contains "You should". -/
theorem C3_frontmatter_counterexample :
    (buildCtx ["---", "You should validate."]).in_frontmatter = [true, true] ∧
    voiceCheckFile "f" ["---", "You should validate."] = [] := by
  decide

/-- C3 (amended): for every document whose first line strips to `---` and
which contains no later closing `---` line, the classifier marks the whole
document (the opening delimiter and every later line) as front matter, so
prose rules are suppressed on all of it: the degradation is graceful in
that nothing fails, but the remainder is treated as front matter rather
than as prose. -/
theorem C3_unterminated_frontmatter (fp : String) (first : String) (rest : List String)
    (hfirst : (stripStr first == "---") = true)
    (hrest : ∀ l ∈ rest, (stripStr l == "---") = false) :
    (buildCtx (first :: rest)).in_frontmatter = List.replicate (rest.length + 1) true ∧
    voiceCheckFile fp (first :: rest) = [] := by
  have hfm : (buildCtx (first :: rest)).in_frontmatter
      = List.replicate (rest.length + 1) true := by
    simp only [buildCtx, buildMaps, hfirst, if_true, if_pos, List.replicate_succ]
    exact List.cons_eq_cons.mpr ⟨rfl, buildMaps_fm_stable rest _ 1 hrest⟩
  refine ⟨hfm, ?_⟩
  apply voiceLoop_all_exc
  intro k hk
  have hkl : k < rest.length + 1 := by simpa using hk
  have hflag : (buildCtx (first :: rest)).in_frontmatter.getD k false = true := by
    rw [hfm]
    exact getD_replicate_true _ k hkl
  unfold is_exception_context
  rw [Nat.zero_add, hflag]
  simp

/-- C3 witness: the amended theorem applied to the concrete document
`["---", "You should validate."]`. -/
theorem C3_unterminated_frontmatter_witness :
    (buildCtx ["---", "You should validate."]).in_frontmatter = List.replicate 2 true ∧
    voiceCheckFile "f" ["---", "You should validate."] = [] :=
  C3_unterminated_frontmatter "f" "---" ["You should validate."] (by decide) (by decide)

set_option maxRecDepth 20000 in
/-- C4: on the single line "You should always validate input." the evaluator
emits exactly one second-person-voice violation, with severity error, the
originally-cased line text, and matched text "you should" from the
lower-cased search; on the line "You should do X. You must do Y." it emits
exactly two second-person-voice violations with the same line number and
matched texts "you should" and "you must" (all non-overlapping matches of
each rule pattern are found, one Violation per match). -/
theorem C4_all_matches_per_line :
    (((voiceCheckFile "f" ["You should always validate input."]).filter
        (fun v => v.violation_type == "second_person_voice")).map
      (fun v => (v.line_num, v.line_content, v.severity, v.matched_text))
      = [(1, "You should always validate input.", Severity.error, some "you should")]) ∧
    (((voiceCheckFile "f" ["You should do X. You must do Y."]).filter
        (fun v => v.violation_type == "second_person_voice")).map
      (fun v => (v.line_num, v.line_content, v.severity, v.matched_text))
      = [(1, "You should do X. You must do Y.", Severity.error, some "you should"),
         (1, "You should do X. You must do Y.", Severity.error, some "you must")]) := by
  decide

/-- C5: the exit code of `main` is 0 exactly when no error-severity
violation exists and, when CI (strict) mode is on, no warning-severity
violation exists either; the code is always 0 or 1 (non-zero otherwise).
Info-severity violations play no role in the condition. -/
theorem C5_exit_code (ci : Bool) (reports : List FileReport) :
    (mainExitCode ci reports = 0 ↔
      totalErrors reports = 0 ∧ (ci = true → totalWarnings reports = 0)) ∧
    (mainExitCode ci reports = 0 ∨ mainExitCode ci reports = 1) := by
  unfold mainExitCode
  rcases Nat.eq_zero_or_pos (totalErrors reports) with hE | hE
  · rcases Nat.eq_zero_or_pos (totalWarnings reports) with hW | hW
    · cases ci <;> simp [hE, hW]
    · cases ci
      · simp [hE, hW]
      · simp [hE, hW]
        omega
  · cases ci <;> (simp [hE]; omega)

set_option maxRecDepth 2000 in
/-- C6 (counterexample): the actual search misses two of the terms the claim
lists.  A document containing "antipattern" (no separator) satisfies the
claimed condition but the code's `hasAntiPatterns` is false, because the
pattern requires `anti` plus exactly one hyphen-or-whitespace character
before `pattern`; likewise "Do not" is claimed as a trigger but the code's
pattern only matches "dont"/"don't". -/
theorem C6_search_terms_counterexample :
    specHasAntiPatterns ["antipattern"] = true ∧
    hasAntiPatternsOf ["antipattern"] = false ∧
    specHasAntiPatterns ["Do not do this."] = true ∧
    hasAntiPatternsOf ["Do not do this."] = false := by
  decide

set_option maxRecDepth 100000 in
/-- C6 (amended): `hasAntiPatterns` comes from a case-insensitive
whole-document search for `anti` followed by one hyphen or whitespace
character followed by `pattern` (so "anti-pattern" and "anti pattern" but
not "antipattern"), a cross-glyph followed on the same line by "wrong",
"dont"/"don't" (but not "do not"), or "avoid".  The checker emits exactly
one `missing_anti_patterns` info violation at line 1 when that flag is
false and the document has more than 100 lines, and none otherwise; in
particular a 150-line document with none of those terms yields exactly one
such violation and an 80-line document yields none. -/
theorem C6_anti_pattern_rule (fp : String) (lines : List String) :
    ((antiPatternCheckFile fp lines).1
      = if hasAntiPatternsOf lines = false ∧ 100 < lines.length
        then [missingAntiViol fp] else []) ∧
    (antiPatternCheckFile fp (List.replicate 150 "x")).1.length = 1 ∧
    (antiPatternCheckFile fp (List.replicate 80 "x")).1.length = 0 := by
  refine ⟨?_, ?_, ?_⟩
  · unfold antiPatternCheckFile
    by_cases h1 : hasAntiPatternsOf lines <;> by_cases h2 : 100 < lines.length <;>
      simp [h1, h2]
  · unfold antiPatternCheckFile
    rw [show hasAntiPatternsOf (List.replicate 150 "x") = false from by decide]
    simp
  · unfold antiPatternCheckFile
    rw [show hasAntiPatternsOf (List.replicate 80 "x") = false from by decide]
    simp

/-- C7: for every positive or negative example-marker line that has a
following line, the example-format checker emits zero `missing_code_block`
violations referencing the marker line when the next line is a fence start,
and exactly one when it is not (for instance a blank line). -/
theorem C7_marker_next_line (fp : String) (lines : List String) (i : Nat)
    (hm : isCheckmark (lines.getD i "") = true ∨ isCrossmark (lines.getD i "") = true)
    (hn : i + 1 < lines.length) :
    (exampleCheckFile fp lines).1.countP (mcbAt (i + 1))
      = if fenceStart (lines.getD (i + 1) "") then 0 else 1 := by
  rw [exampleCheckFile_countP]
  have h := @exampleLoop_countP fp lines 0 i
  rw [show (0 + i + 1 : Nat) = i + 1 from by omega] at h
  rw [h]
  have hne : (lines.drop (i + 1)).isEmpty = false := by
    have hlen : 0 < (lines.drop (i + 1)).length := by
      rw [List.length_drop]
      omega
    cases he : lines.drop (i + 1) with
    | nil => rw [he] at hlen; exact absurd hlen (by simp)
    | cons a t => rfl
  rcases hm with hc | hx
  · rw [hc, marks_exclusive hc, hne]
    by_cases hf : fenceStart (lines.getD (i + 1) "") = true
    · rw [hf]
      simp
    · rw [Bool.not_eq_true] at hf
      rw [hf]
      simp
  · rw [hx, marks_exclusive' hx, hne]
    by_cases hf : fenceStart (lines.getD (i + 1) "") = true
    · rw [hf]
      simp
    · rw [Bool.not_eq_true] at hf
      rw [hf]
      simp

/-- C7 witness: the theorem applied to `["✅ x", ""]` at marker index 0,
whose next line is blank — exactly one `missing_code_block` violation. -/
theorem C7_marker_next_line_witness :
    (exampleCheckFile "f" ["✅ x", ""]).1.countP (mcbAt 1) = 1 :=
  (C7_marker_next_line "f" ["✅ x", ""] 0 (Or.inl (by decide)) (by decide)).trans (by decide)

/-- C9: when the last line of a document is a positive or negative example
marker, the checker emits no `missing_code_block` violation for it — the
next-line check is skipped when no next line exists. -/
theorem C9_marker_at_eof (fp : String) (lines : List String) (i : Nat)
    (_hm : isCheckmark (lines.getD i "") = true ∨ isCrossmark (lines.getD i "") = true)
    (hlast : i + 1 = lines.length) :
    (exampleCheckFile fp lines).1.countP (mcbAt (i + 1)) = 0 := by
  rw [exampleCheckFile_countP]
  have h := @exampleLoop_countP fp lines 0 i
  rw [show (0 + i + 1 : Nat) = i + 1 from by omega] at h
  rw [h]
  have hnil : lines.drop (i + 1) = [] := by
    have h0 : (lines.drop (i + 1)).length = 0 := by
      rw [List.length_drop]
      omega
    exact List.length_eq_zero.mp h0
  rw [hnil]
  simp

/-- C9 witness: the theorem applied to the one-line document `["✅ x"]`
whose only line is a positive marker. -/
theorem C9_marker_at_eof_witness :
    (exampleCheckFile "f" ["✅ x"]).1.countP (mcbAt 1) = 0 :=
  C9_marker_at_eof "f" ["✅ x"] 0 (Or.inl (by decide)) rfl

/-- C8: reading `summary.total_errors`, `summary.total_warnings` and
`summary.total_info` back from the JSON report of any list of FileReports
yields exactly the sums of `error_count`, `warning_count` and `info_count`
computed directly from the FileReports (the rendering/parsing of the
document itself is Python's `json` library, assumed faithful). -/
theorem C8_json_summary_roundtrip (reports : List FileReport) :
    summaryField (generateJson reports) "total_errors"
        = some (Json.num (totalErrors reports)) ∧
    summaryField (generateJson reports) "total_warnings"
        = some (Json.num (totalWarnings reports)) ∧
    summaryField (generateJson reports) "total_info"
        = some (Json.num (totalInfo reports)) :=
  ⟨rfl, rfl, rfl⟩

/-- C10: the `files` array of the JSON report has one entry per report with
at least one violation — its `path` fields are exactly the paths of those
reports, in order — while `summary.total_files` counts every scanned
report, so a cleanly-scanned file contributes to `total_files` but has no
entry in `files`. -/
theorem C10_files_only_with_violations (reports : List FileReport) :
    summaryField (generateJson reports) "total_files"
        = some (Json.num reports.length) ∧
    (jsonFiles (generateJson reports)).map (fun e => e.getField "path")
        = (reports.filter (fun r => !r.violations.isEmpty)).map
            (fun r => some (Json.str r.file_path)) := by
  refine ⟨rfl, ?_⟩
  show ((reports.filter (fun r => !r.violations.isEmpty)).map fileEntry).map
      (fun e => e.getField "path") = _
  rw [List.map_map]
  rfl
